import Mathlib

/-!
Verification of the mail-sender worker core (job lifecycle and retry engine).

This file gives a shallow embedding of the Go worker of the repository:

* `internal/domain/models` (EmailJob, JobStatus, history, guards) --
  the file beginning `package models` with `EmailJob`;
* `internal/domain/errors/errors.go` (DomainError taxonomy and classifiers);
* `internal/usecases/email/retry_handler.go` (HandleRetry, ShouldRetry,
  handleMaxRetriesExceeded, backoff);
* the Redis cache service (`StoreJob`, `GetJob`, `UpdateJobStatus`) from the
  file beginning `package cache`;
* the RabbitMQ service (`PublishEmailJob`, `ConsumeEmailJobs`) from the file
  beginning `package messaging`;
* the email-processing use case (`ProcessEmailJob`) and the worker loop
  (`handleEmailJob` in `internal/worker`);
* the health models and handler (`HealthResponse`, `updateOverallStatus`,
  `checkRedis`, `checkRabbitMQ`, `checkSMTP`).

Modelling conventions: Go `int` is `Int` (no operation here approaches the
64-bit range, all counters are bounded by small configured maxima); `time.Time`
values are abstracted to integer ticks supplied as explicit parameters (no
claim observes a concrete wall-clock value); JSON documents are modelled by an
explicit `Json` tree with numbers for the abstracted time ticks; network and
store side effects are modelled by explicit effect traces and by injected
error outcomes (`Option GoError`) for the fallible calls.
-/

/-- `JobStatus` from the models package.  In Go it is a string type; the five
named constants are modelled as constructors and any other string (such as the
zero value produced by decoding a message without a `status` field) is kept in
the `other` constructor.  All comparisons go through `statusString`, matching
Go's string equality. -/
inductive JobStatus where
  | pending
  | processing
  | completed
  | failed
  | retrying
  | other (s : String)
deriving DecidableEq

/-- The underlying Go string of a `JobStatus`. -/
def statusString : JobStatus → String
  | .pending => "pending"
  | .processing => "processing"
  | .completed => "completed"
  | .failed => "failed"
  | .retrying => "retrying"
  | .other s => s

/-- Conversely, the canonical `JobStatus` of a Go string. -/
def statusOfString (s : String) : JobStatus :=
  if s = "pending" then .pending
  else if s = "processing" then .processing
  else if s = "completed" then .completed
  else if s = "failed" then .failed
  else if s = "retrying" then .retrying
  else .other s

/-- `JobStatus.IsTerminal`: true iff the status is completed or failed. -/
def JobStatus.IsTerminal (s : JobStatus) : Bool :=
  statusString s == "completed" || statusString s == "failed"

/-- `JobStatus.IsValid`: the switch over the five named statuses. -/
def JobStatus.IsValid (s : JobStatus) : Bool :=
  statusString s == "pending" || statusString s == "processing" ||
  statusString s == "completed" || statusString s == "failed" ||
  statusString s == "retrying"

/-- `JobHistoryEntry` from the models package. -/
structure JobHistoryEntry where
  status : JobStatus
  timestamp : Int
  error : String
  message : String
deriving DecidableEq

/-- `EmailJob` from the models package.  `toAddr` is the Go `To` field (`to`
is reserved in Lean); `createdAt` carries the `CreatedAt` field (json tag
`-`), `createdAtStr` the `CreatedAtStr` field (json tag `created_at`).
`metadata` is the `map[string]string` as an association list. -/
structure EmailJob where
  jobID : String
  toAddr : String
  subject : String
  body : String
  createdAt : Int
  createdAtStr : String
  updatedAt : Int
  status : JobStatus
  retryCount : Int
  maxRetries : Int
  lastError : String
  history : List JobHistoryEntry
  metadata : List (String × String)
deriving DecidableEq

/-- `NewEmailJob`: fresh pending job with zero retry count and empty history. -/
def NewEmailJob (jobID toAddr subject body : String) (maxRetries : Int) (t : Int) : EmailJob :=
  { jobID := jobID, toAddr := toAddr, subject := subject, body := body,
    createdAt := t, createdAtStr := "", updatedAt := t, status := .pending,
    retryCount := 0, maxRetries := maxRetries, lastError := "",
    history := [], metadata := [] }

/-- `EmailJob.AddHistoryEntry`: appends one entry and bumps `UpdatedAt`. -/
def EmailJob.AddHistoryEntry (j : EmailJob) (status : JobStatus)
    (message errorMsg : String) (t : Int) : EmailJob :=
  { j with history := j.history ++ [⟨status, t, errorMsg, message⟩], updatedAt := t }

/-- `EmailJob.UpdateStatus`: sets status and last error, then appends history. -/
def EmailJob.UpdateStatus (j : EmailJob) (status : JobStatus)
    (message errorMsg : String) (t : Int) : EmailJob :=
  EmailJob.AddHistoryEntry { j with status := status, lastError := errorMsg }
    status message errorMsg t

/-- `EmailJob.IncrementRetry`: bumps the retry count and records the
`retrying` transition. -/
def EmailJob.IncrementRetry (j : EmailJob) (errorMsg : String) (t : Int) : EmailJob :=
  EmailJob.UpdateStatus { j with retryCount := j.retryCount + 1, lastError := errorMsg }
    .retrying "Job requeued for retry" errorMsg t

/-- `EmailJob.ShouldRetry` (the model-level guard in the models package). -/
def EmailJob.ShouldRetry (j : EmailJob) : Bool :=
  decide (j.retryCount < j.maxRetries) && !(j.status.IsTerminal)

/-- `EmailJob.CanProcess`: only pending or retrying jobs may be processed. -/
def EmailJob.CanProcess (j : EmailJob) : Bool :=
  statusString j.status == "pending" || statusString j.status == "retrying"

/-- `EmailJob.Validate`: `none` means valid, `some msg` is the validation
error message. -/
def EmailJob.Validate (j : EmailJob) : Option String :=
  if j.jobID = "" then some "job_id is required"
  else if j.toAddr = "" then some "to is required"
  else if j.subject = "" then some "subject is required"
  else if j.body = "" then some "body is required"
  else if j.maxRetries < 0 then some "max_retries must be >= 0"
  else if j.status.IsValid = false then some "invalid status"
  else none

/-- The error codes of `domain/errors/errors.go`. -/
inductive ErrCode where
  | validation
  | config
  | redis
  | rabbitmq
  | smtp
  | jobProcessing
  | retryExceeded
  | shutdownCode
  | healthCheck
deriving DecidableEq

/-- The string constant attached to each error code. -/
def ErrCode.codeString : ErrCode → String
  | .validation => "VALIDATION_ERROR"
  | .config => "CONFIG_ERROR"
  | .redis => "REDIS_ERROR"
  | .rabbitmq => "RABBITMQ_ERROR"
  | .smtp => "SMTP_ERROR"
  | .jobProcessing => "JOB_PROCESSING_ERROR"
  | .retryExceeded => "RETRY_EXCEEDED_ERROR"
  | .shutdownCode => "SHUTDOWN_ERROR"
  | .healthCheck => "HEALTH_CHECK_ERROR"

/-- A Go error as the worker sees it: either a `*DomainError` (code, message,
optional cause rendered to a string) or any other error value (`plain`). -/
inductive GoError where
  | domain (code : ErrCode) (message : String) (cause : Option String)
  | plain (message : String)
deriving DecidableEq

/-- `DomainError.Error()` / generic `error.Error()`. -/
def GoError.Error : GoError → String
  | .domain c m (some cs) => c.codeString ++ ": " ++ m ++ " (caused by: " ++ cs ++ ")"
  | .domain c m none => c.codeString ++ ": " ++ m
  | .plain m => m

/-- `IsValidationError`: a `*DomainError` with the validation code. -/
def IsValidationError : GoError → Bool
  | .domain .validation _ _ => true
  | _ => false

/-- `IsConfigError`: a `*DomainError` with the config code. -/
def IsConfigError : GoError → Bool
  | .domain .config _ _ => true
  | _ => false

/-- `IsInfrastructureError`: Redis, RabbitMQ or SMTP coded `*DomainError`. -/
def IsInfrastructureError : GoError → Bool
  | .domain .redis _ _ => true
  | .domain .rabbitmq _ _ => true
  | .domain .smtp _ _ => true
  | _ => false

/-- `IsRetryableError`: Redis, RabbitMQ, SMTP or job-processing coded
`*DomainError`; anything else (including non-domain errors) is not matched. -/
def IsRetryableError : GoError → Bool
  | .domain .redis _ _ => true
  | .domain .rabbitmq _ _ => true
  | .domain .smtp _ _ => true
  | .domain .jobProcessing _ _ => true
  | _ => false

/-- `ShouldRetry` of `retry_handler.go` (the retry coordinator's guard):
max-retries, terminal state, validation and config errors refuse the retry;
retryable infrastructure errors and unknown errors allow it. -/
def ShouldRetry (job : EmailJob) (e : GoError) : Bool :=
  if job.maxRetries ≤ job.retryCount then false
  else if job.status.IsTerminal then false
  else if IsValidationError e then false
  else if IsConfigError e then false
  else if IsRetryableError e then true
  else true

/-- The backoff computation of `HandleRetry`: `retryCount * retryCount`
seconds, capped at 30 seconds. -/
def retryDelaySeconds (c : Int) : Int :=
  if 30 < c * c then 30 else c * c

/-- One observable side effect of the retry coordinator: a status-store write
(`cacheService.UpdateJobStatus`), a synchronous queue publish
(`messagingService.PublishEmailJob`), or the backoff goroutine's delayed
republish onto a queue. -/
inductive Effect where
  | storeUpdate (jobID : String) (status : JobStatus) (errorMsg : String)
      (retryCount : Int) (t : Int)
  | publishQueue (queue : String) (job : EmailJob)
  | scheduleRepublish (queue : String) (job : EmailJob) (delaySeconds : Int)
deriving DecidableEq

/-- `handleMaxRetriesExceeded`: composes the terminal message, marks the job
failed, writes the store, then publishes to the dead-letter queue
`email_tasks_failed`.  `dlqPublishErr` injects the outcome of that publish;
the return value is the trace of attempted effects, the mutated in-memory job,
and the Go return value (always an error on this path). -/
def handleMaxRetriesExceeded (job : EmailJob) (originalErr : GoError) (t : Int)
    (dlqPublishErr : Option GoError) : List Effect × EmailJob × Option GoError :=
  let finalError := "Failed after " ++ toString job.retryCount ++ " retries: " ++
    originalErr.Error
  let job1 := job.UpdateStatus .failed "Max retries exceeded" finalError t
  let tr := [Effect.storeUpdate job.jobID .failed finalError job.retryCount t,
             Effect.publishQueue "email_tasks_failed" job1]
  match dlqPublishErr with
  | some pe =>
      (tr, job1, some (GoError.domain .jobProcessing
        "failed to send job to failed queue" (some pe.Error)))
  | none =>
      (tr, job1, some (GoError.domain .retryExceeded
        ("job " ++ job.jobID ++ " exceeded max retries (" ++
          toString job.maxRetries ++ ")") none))

/-- `HandleRetry` of `retry_handler.go`.  When `ShouldRetry` refuses, it
delegates to `handleMaxRetriesExceeded`; otherwise it increments the retry
count, persists the retrying status with the new count, and schedules an
asynchronous republish onto the main queue `email_tasks` after the computed
backoff delay. -/
def HandleRetry (job : EmailJob) (e : GoError) (t : Int)
    (dlqPublishErr : Option GoError) : List Effect × EmailJob × Option GoError :=
  if ShouldRetry job e = false then handleMaxRetriesExceeded job e t dlqPublishErr
  else
    let job1 := job.IncrementRetry e.Error t
    let d := retryDelaySeconds job1.retryCount
    ([Effect.storeUpdate job.jobID .retrying e.Error job1.retryCount t,
      Effect.scheduleRepublish "email_tasks" job1 d], job1, none)

/-- The effect of the cache service's `UpdateJobStatus` on the stored job
record: reject invalid statuses, otherwise transition the status, append
history, and overwrite the stored retry count only when the supplied count is
strictly positive. -/
def applyUpdateJobStatus (j : EmailJob) (status : JobStatus) (errorMsg : String)
    (retryCount : Int) (t : Int) : EmailJob :=
  if status.IsValid = false then j
  else
    let j1 := j.UpdateStatus status "" errorMsg t
    if 0 < retryCount then { j1 with retryCount := retryCount } else j1

/-- Applies one effect to the stored copy of a job (only store updates
addressed to this job's id mutate it). -/
def applyEffect (store : EmailJob) (e : Effect) : EmailJob :=
  match e with
  | .storeUpdate id status msg rc t =>
      if id == store.jobID && !(id == "") then applyUpdateJobStatus store status msg rc t
      else store
  | .publishQueue _ _ => store
  | .scheduleRepublish _ _ _ => store

/-- Applies a trace of effects to the stored job, in order. -/
def applyEffects (store : EmailJob) (effects : List Effect) : EmailJob :=
  effects.foldl applyEffect store

/-- The processor's private `updateJobStatus` wrapper (email use case): it
always passes `0` for the retry count. -/
def processorUpdateJobStatus (store : EmailJob) (jobID : String)
    (status : JobStatus) (errorMsg : String) (t : Int) : EmailJob :=
  applyEffect store (Effect.storeUpdate jobID status errorMsg 0 t)

/-- `ProcessEmailJob` of the email use case, as a transformer of the stored
job record.  `sendErr` injects the outcome of the SMTP send.  Returns the
stored record and the Go return value. -/
def ProcessEmailJob (store job : EmailJob) (sendErr : Option GoError)
    (t : Int) : EmailJob × Option GoError :=
  if job.CanProcess = false then
    (store, some (GoError.domain .jobProcessing
      "job cannot be processed in current state" none))
  else
    let s1 := processorUpdateJobStatus store job.jobID .processing "" t
    match sendErr with
    | some e =>
        let s2 := processorUpdateJobStatus s1 job.jobID .failed e.Error t
        (s2, some e)
    | none => (processorUpdateJobStatus s1 job.jobID .completed "" t, none)

/-- `handleEmailJob` of the worker service: process the delivered job; on any
error from the processor, run the retry coordinator and apply its synchronous
store writes to the stored record. -/
def handleEmailJob (isRunning : Bool) (store job : EmailJob)
    (sendErr : Option GoError) (dlqPublishErr : Option GoError) (t : Int) : EmailJob :=
  if isRunning = false then store
  else
    match ProcessEmailJob store job sendErr t with
    | (s1, none) => s1
    | (s1, some e) => applyEffects s1 (HandleRetry job e t dlqPublishErr).1

/-- The statuses recorded in a job's history, in order. -/
def statusTrace (j : EmailJob) : List JobStatus :=
  j.history.map (fun h => h.status)

/-- Whether a status sequence contains a `failed` entry immediately followed
by a `retrying` entry (an illegal transition out of a terminal state). -/
def chainHasFailedThenRetrying : List JobStatus → Bool
  | a :: b :: rest =>
      (statusString a == "failed" && statusString b == "retrying") ||
      chainHasFailedThenRetrying (b :: rest)
  | _ => false

example : (NewEmailJob "j" "a@b.c" "s" "b" 3 0).CanProcess = true := by decide
example : ShouldRetry (NewEmailJob "j" "a@b.c" "s" "b" 3 0) (GoError.plain "x") = true := by
  decide
example : retryDelaySeconds 6 = 30 := by decide

/-- A JSON document, as handled by `encoding/json`. -/
inductive Json where
  | null
  | str (s : String)
  | num (n : Int)
  | boolean (b : Bool)
  | arr (elems : List Json)
  | obj (fields : List (String × Json))

/-- Field lookup in a JSON object (first binding wins). -/
def lookupField (fields : List (String × Json)) (key : String) : Option Json :=
  match fields with
  | [] => none
  | (k, v) :: rest => if k = key then some v else lookupField rest key

/-- `json.Marshal` of one `JobHistoryEntry` (struct tags `status`,
`timestamp`, `error,omitempty`, `message,omitempty`; the abstract time tick is
encoded as a number). -/
def marshalHistoryEntry (h : JobHistoryEntry) : Json :=
  Json.obj
    ([("status", Json.str (statusString h.status)), ("timestamp", Json.num h.timestamp)]
      ++ (if h.error = "" then [] else [("error", Json.str h.error)])
      ++ (if h.message = "" then [] else [("message", Json.str h.message)]))

/-- The field list of `json.Marshal` of an `EmailJob`, following the struct
tags: `job_id`, `to`, `subject`, `body`, `created_at` (the `CreatedAtStr`
string; `CreatedAt` itself has tag `-` and is never emitted), `updated_at`,
`status`, `retry_count`, `max_retries`, `last_error,omitempty`, `history`,
`metadata,omitempty`.  Note there is no `content` field: `PublishEmailJob`
marshals the job flat. -/
def marshalFields (j : EmailJob) : List (String × Json) :=
  [("job_id", Json.str j.jobID), ("to", Json.str j.toAddr),
   ("subject", Json.str j.subject), ("body", Json.str j.body),
   ("created_at", Json.str j.createdAtStr), ("updated_at", Json.num j.updatedAt),
   ("status", Json.str (statusString j.status)), ("retry_count", Json.num j.retryCount),
   ("max_retries", Json.num j.maxRetries)]
  ++ (if j.lastError = "" then [] else [("last_error", Json.str j.lastError)])
  ++ [("history", Json.arr (j.history.map marshalHistoryEntry))]
  ++ (if j.metadata = [] then [] else
      [("metadata", Json.obj (j.metadata.map (fun p => (p.1, Json.str p.2))))])

/-- `json.Marshal(job)`: the message body `PublishEmailJob` puts on the
queue. -/
def marshalEmailJob (j : EmailJob) : Json :=
  Json.obj (marshalFields j)

/-- Decodes an optional string field, with `encoding/json` semantics: a
missing field or a JSON null leaves the Go zero value, a non-string value is
a type error that fails the whole unmarshal. -/
def decodeString : Option Json → Option String
  | none => some ""
  | some (Json.str s) => some s
  | some Json.null => some ""
  | some _ => none

/-- Decodes an optional integer field (used for Go `int` fields and for the
abstracted time ticks). -/
def decodeInt : Option Json → Option Int
  | none => some 0
  | some (Json.num n) => some n
  | some Json.null => some 0
  | some _ => none

/-- Unmarshals one history entry (a JSON null element no-ops onto the zero
entry, as `encoding/json` does for structs). -/
def decodeHistoryEntry (v : Json) : Option JobHistoryEntry :=
  match v with
  | Json.obj fs => do
      let st ← decodeString (lookupField fs "status")
      let ts ← decodeInt (lookupField fs "timestamp")
      let er ← decodeString (lookupField fs "error")
      let ms ← decodeString (lookupField fs "message")
      some ⟨statusOfString st, ts, er, ms⟩
  | Json.null => some ⟨statusOfString "", 0, "", ""⟩
  | _ => none

/-- Unmarshals the `history` field (missing or null gives the nil slice). -/
def decodeHistory : Option Json → Option (List JobHistoryEntry)
  | none => some []
  | some Json.null => some []
  | some (Json.arr xs) => xs.mapM decodeHistoryEntry
  | some _ => none

/-- Unmarshals the `metadata` field (a string-to-string map). -/
def decodeMetadata : Option Json → Option (List (String × String))
  | none => some []
  | some Json.null => some []
  | some (Json.obj fs) =>
      fs.mapM (fun p =>
        match p.2 with
        | Json.str s => some (p.1, s)
        | Json.null => some (p.1, "")
        | _ => none)
  | some _ => none

/-- `EmailJob.UnmarshalJSON`: decode the tagged fields, then the custom
post-processing (parse `CreatedAtStr` into `CreatedAt` -- the parse result is
left at the zero tick since time values are abstracted here -- and default a
zero `UpdatedAt` to `CreatedAt`).  A JSON null no-ops, leaving the zero
job. -/
def decodeEmailJob (v : Json) : Option EmailJob :=
  match v with
  | Json.obj fs => do
      let jobID ← decodeString (lookupField fs "job_id")
      let toAddr ← decodeString (lookupField fs "to")
      let subject ← decodeString (lookupField fs "subject")
      let body ← decodeString (lookupField fs "body")
      let createdAtStr ← decodeString (lookupField fs "created_at")
      let updatedAt0 ← decodeInt (lookupField fs "updated_at")
      let st ← decodeString (lookupField fs "status")
      let retryCount ← decodeInt (lookupField fs "retry_count")
      let maxRetries ← decodeInt (lookupField fs "max_retries")
      let lastError ← decodeString (lookupField fs "last_error")
      let history ← decodeHistory (lookupField fs "history")
      let metadata ← decodeMetadata (lookupField fs "metadata")
      let createdAt : Int := 0
      let updatedAt := if updatedAt0 = 0 then createdAt else updatedAt0
      some { jobID := jobID, toAddr := toAddr, subject := subject, body := body,
             createdAt := createdAt, createdAtStr := createdAtStr,
             updatedAt := updatedAt, status := statusOfString st,
             retryCount := retryCount, maxRetries := maxRetries,
             lastError := lastError, history := history, metadata := metadata }
  | Json.null =>
      some { jobID := "", toAddr := "", subject := "", body := "",
             createdAt := 0, createdAtStr := "", updatedAt := 0,
             status := statusOfString "", retryCount := 0, maxRetries := 0,
             lastError := "", history := [], metadata := [] }
  | _ => none

/-- The per-message decode path of `ConsumeEmailJobs`: unmarshal the
`messageWrapper` struct (only its `content` field matters; a body that is not
a JSON object fails that unmarshal), then unmarshal the `EmailJob` from the
raw `content` bytes -- when the `content` field is absent the raw message is
nil and that unmarshal fails -- then validate.  `none` means the message is
dropped (logged and skipped) and the handler is never invoked; `some job`
means the handler is invoked with `job`. -/
def consumeMessageBody (body : Json) : Option EmailJob :=
  match body with
  | Json.obj fields =>
      match lookupField fields "content" with
      | none => none
      | some content =>
          match decodeEmailJob content with
          | none => none
          | some job =>
              match job.Validate with
              | some _ => none
              | none => some job
  | _ => none

/-- `PublishEmailJob`: validates the job, then publishes `json.Marshal(job)`
(flat, no envelope) onto the given queue.  Returns the message body actually
enqueued, or the validation error. -/
def PublishEmailJob (job : EmailJob) : Except GoError Json :=
  match job.Validate with
  | some msg => .error (GoError.domain .validation "invalid job" (some msg))
  | none => .ok (marshalEmailJob job)

/-- The Redis `GET` of the key space `job:<id>` (the stored record is kept
decoded; the cache layer's own serialization round-trip is not at issue in
any claim). -/
def redisGet (store : List (String × EmailJob)) (key : String) : Option EmailJob :=
  match store with
  | [] => none
  | (k, v) :: rest => if k = key then some v else redisGet rest key

/-- `GetJob` of the cache service: empty ids are a validation error; a
missing key (redis.Nil) produces `NewRedisError("job <id> not found")`; a hit
returns the job. -/
def GetJob (store : List (String × EmailJob)) (jobID : String) : Except GoError EmailJob :=
  if jobID = "" then .error (GoError.domain .validation "job ID is required" none)
  else
    match redisGet store ("job:" ++ jobID) with
    | none => .error (GoError.domain .redis ("job " ++ jobID ++ " not found") none)
    | some job => .ok job

/-- One dependency entry of the health response. -/
structure HealthCheckEntry where
  status : String
  message : String
  latency : String
deriving DecidableEq

/-- `HealthResponse` of the health models (timestamps omitted; the
dependency map is an association list keyed by dependency name). -/
structure HealthResponse where
  status : String
  service : String
  isRunning : Bool
  jobsProcessed : Int
  dependencies : List (String × HealthCheckEntry)
deriving DecidableEq

/-- `NewHealthResponse`: starts healthy with no dependencies. -/
def NewHealthResponse (service : String) (isRunning : Bool) (jobsProcessed : Int) :
    HealthResponse :=
  { status := "healthy", service := service, isRunning := isRunning,
    jobsProcessed := jobsProcessed, dependencies := [] }

/-- Go map assignment on the dependency list. -/
def upsertDep (deps : List (String × HealthCheckEntry)) (name : String)
    (entry : HealthCheckEntry) : List (String × HealthCheckEntry) :=
  match deps with
  | [] => [(name, entry)]
  | (k, v) :: rest =>
      if k = name then (name, entry) :: rest else (k, v) :: upsertDep rest name entry

/-- `updateOverallStatus`: a stopped worker is unhealthy; otherwise any
unhealthy dependency makes the whole response unhealthy, else any degraded
dependency makes it degraded, else healthy. -/
def updateOverallStatus (h : HealthResponse) : HealthResponse :=
  if h.isRunning = false then { h with status := "unhealthy" }
  else
    let hasUnhealthy := h.dependencies.any (fun d => d.2.status == "unhealthy")
    let hasDegraded := h.dependencies.any (fun d => d.2.status == "degraded")
    if hasUnhealthy then { h with status := "unhealthy" }
    else if hasDegraded then { h with status := "degraded" }
    else { h with status := "healthy" }

/-- `AddDependencyCheck`: records the dependency entry, then recomputes the
overall status. -/
def AddDependencyCheck (h : HealthResponse) (name status message latency : String) :
    HealthResponse :=
  updateOverallStatus
    { h with dependencies := upsertDep h.dependencies name ⟨status, message, latency⟩ }

/-- `checkRedis`: a failed store ping marks the `redis` dependency
unhealthy. -/
def checkRedis (redisPingErr : Option GoError) (h : HealthResponse) : HealthResponse :=
  match redisPingErr with
  | some e => AddDependencyCheck h "redis" "unhealthy" e.Error ""
  | none => AddDependencyCheck h "redis" "healthy" "Connected" ""

/-- `checkRabbitMQ`: a failed queue ping marks the `rabbitmq` dependency
unhealthy. -/
def checkRabbitMQ (rabbitPingErr : Option GoError) (h : HealthResponse) : HealthResponse :=
  match rabbitPingErr with
  | some e => AddDependencyCheck h "rabbitmq" "unhealthy" e.Error ""
  | none => AddDependencyCheck h "rabbitmq" "healthy" "Connected" ""

/-- `checkSMTP`: a failed transport ping marks the `smtp` dependency only
degraded ("SMTP failure is less critical"). -/
def checkSMTP (smtpPingErr : Option GoError) (h : HealthResponse) : HealthResponse :=
  match smtpPingErr with
  | some e => AddDependencyCheck h "smtp" "degraded" e.Error ""
  | none => AddDependencyCheck h "smtp" "healthy" "Connected" ""

/-- `HealthCheck` of the health handler: build the base response, then check
Redis, RabbitMQ, and SMTP in that order. -/
def HealthCheck (isRunning : Bool) (jobsProcessed : Int)
    (redisPingErr rabbitPingErr smtpPingErr : Option GoError) : HealthResponse :=
  checkSMTP smtpPingErr
    (checkRabbitMQ rabbitPingErr
      (checkRedis redisPingErr (NewHealthResponse "worker-go" isRunning jobsProcessed)))

/-- The stored job records reachable through the operations that touch the
retry count: creation (the producer submits a fresh job with retry count 0
and a non-negative configured maximum -- `MAX_RETRIES` is validated
non-negative by the worker config and by `EmailJob.Validate`), the
processor's status writes (which pass retry count 0), the retry
coordinator's retrying write of the incremented count guarded by
`ShouldRetry`, and the finalizing failed write of the unchanged count. -/
inductive ReachableJob : EmailJob → Prop where
  | created (jobID toAddr subject body : String) (maxRetries : Int) (t : Int) :
      0 ≤ maxRetries → ReachableJob (NewEmailJob jobID toAddr subject body maxRetries t)
  | statusWrite (j : EmailJob) (status : JobStatus) (errorMsg : String) (t : Int) :
      ReachableJob j → ReachableJob (applyUpdateJobStatus j status errorMsg 0 t)
  | retryWrite (j : EmailJob) (e : GoError) (errorMsg : String) (t : Int) :
      ReachableJob j → ShouldRetry j e = true →
      ReachableJob (applyUpdateJobStatus j .retrying errorMsg (j.retryCount + 1) t)
  | finalWrite (j : EmailJob) (errorMsg : String) (t : Int) :
      ReachableJob j → ReachableJob (applyUpdateJobStatus j .failed errorMsg j.retryCount t)

/-- Sample fresh pending job used by concrete witnesses. -/
def freshJob : EmailJob :=
  NewEmailJob "job-1" "user@example.com" "Hello subject" "Hello body" 3 0

/-- Sample retryable SMTP send error. -/
def smtpSendErr : GoError :=
  GoError.domain .smtp "failed to send email" (some "dial tcp: connection refused")

/-- Sample stored job that has already completed. -/
def completedJob : EmailJob :=
  { jobID := "job-2", toAddr := "user@example.com", subject := "Hello subject",
    body := "Hello body", createdAt := 0, createdAtStr := "", updatedAt := 3,
    status := .completed, retryCount := 0, maxRetries := 3, lastError := "",
    history := [⟨.pending, 0, "", ""⟩, ⟨.processing, 1, "", ""⟩, ⟨.completed, 3, "", ""⟩],
    metadata := [] }

lemma updateStatus_status (j : EmailJob) (s : JobStatus) (m e : String) (t : Int) :
    (EmailJob.UpdateStatus j s m e t).status = s := by
  simp [EmailJob.UpdateStatus, EmailJob.AddHistoryEntry]

lemma updateStatus_retryCount (j : EmailJob) (s : JobStatus) (m e : String) (t : Int) :
    (EmailJob.UpdateStatus j s m e t).retryCount = j.retryCount := by
  simp [EmailJob.UpdateStatus, EmailJob.AddHistoryEntry]

lemma updateStatus_maxRetries (j : EmailJob) (s : JobStatus) (m e : String) (t : Int) :
    (EmailJob.UpdateStatus j s m e t).maxRetries = j.maxRetries := by
  simp [EmailJob.UpdateStatus, EmailJob.AddHistoryEntry]

lemma updateStatus_history (j : EmailJob) (s : JobStatus) (m e : String) (t : Int) :
    (EmailJob.UpdateStatus j s m e t).history = j.history ++ [⟨s, t, e, m⟩] := by
  simp [EmailJob.UpdateStatus, EmailJob.AddHistoryEntry]

lemma incrementRetry_retryCount (j : EmailJob) (msg : String) (t : Int) :
    (EmailJob.IncrementRetry j msg t).retryCount = j.retryCount + 1 := by
  simp [EmailJob.IncrementRetry, EmailJob.UpdateStatus, EmailJob.AddHistoryEntry]

lemma incrementRetry_history (j : EmailJob) (msg : String) (t : Int) :
    (EmailJob.IncrementRetry j msg t).history =
      j.history ++ [⟨.retrying, t, msg, "Job requeued for retry"⟩] := by
  simp [EmailJob.IncrementRetry, EmailJob.UpdateStatus, EmailJob.AddHistoryEntry]

lemma applyUpdateJobStatus_maxRetries (j : EmailJob) (s : JobStatus) (m : String)
    (rc t : Int) : (applyUpdateJobStatus j s m rc t).maxRetries = j.maxRetries := by
  unfold applyUpdateJobStatus
  split
  · rfl
  · split
    · simp [updateStatus_maxRetries]
    · exact updateStatus_maxRetries j s "" m t

lemma applyUpdateJobStatus_retryCount_nonpos (j : EmailJob) (s : JobStatus) (m : String)
    (rc t : Int) (h : rc ≤ 0) :
    (applyUpdateJobStatus j s m rc t).retryCount = j.retryCount := by
  unfold applyUpdateJobStatus
  split
  · rfl
  · split
    · omega
    · exact updateStatus_retryCount j s "" m t

lemma applyUpdateJobStatus_retryCount_pos (j : EmailJob) (s : JobStatus) (m : String)
    (rc t : Int) (h : 0 < rc) (hv : s.IsValid = true) :
    (applyUpdateJobStatus j s m rc t).retryCount = rc := by
  simp [applyUpdateJobStatus, hv, h]

lemma shouldRetry_lt (j : EmailJob) (e : GoError) (h : ShouldRetry j e = true) :
    j.retryCount < j.maxRetries := by
  unfold ShouldRetry at h
  split_ifs at h
  all_goals omega

lemma reachable_count_le_max (j : EmailJob) (h : ReachableJob j) :
    j.retryCount ≤ j.maxRetries := by
  induction h with
  | created jobID toAddr subject body maxRetries t hm =>
      simpa [NewEmailJob] using hm
  | statusWrite j s msg t hj ih =>
      rw [applyUpdateJobStatus_retryCount_nonpos j s msg 0 t (by omega),
          applyUpdateJobStatus_maxRetries]
      exact ih
  | retryWrite j e msg t hj hg ih =>
      rw [applyUpdateJobStatus_maxRetries]
      rcases le_or_lt (j.retryCount + 1) 0 with hc | hc
      · rw [applyUpdateJobStatus_retryCount_nonpos j _ msg _ t hc]
        exact ih
      · rw [applyUpdateJobStatus_retryCount_pos j _ msg _ t hc (by decide)]
        have := shouldRetry_lt j e hg
        omega
  | finalWrite j msg t hj ih =>
      rw [applyUpdateJobStatus_maxRetries]
      rcases le_or_lt j.retryCount 0 with hc | hc
      · rw [applyUpdateJobStatus_retryCount_nonpos j _ msg _ t hc]
        exact ih
      · rw [applyUpdateJobStatus_retryCount_pos j _ msg _ t hc (by decide)]
        exact ih

/-- C3: on every job record reachable through the count-touching operations
(creation with retry count 0, the processor's zero-count status writes, the
`ShouldRetry`-guarded retrying write of the incremented count, and the
finalizing failed write), the retry count never exceeds the maximum while the
status is not failed. -/
theorem retry_count_invariant (j : EmailJob) (h : ReachableJob j)
    (_hs : statusString j.status ≠ "failed") : j.retryCount ≤ j.maxRetries :=
  reachable_count_le_max j h

/-- Witness for C3 at a concrete freshly created job. -/
theorem retry_count_invariant_witness :
    statusString (NewEmailJob "job-w3" "a@b.c" "s" "b" 3 0).status ≠ "failed"
    ∧ (NewEmailJob "job-w3" "a@b.c" "s" "b" 3 0).retryCount ≤
        (NewEmailJob "job-w3" "a@b.c" "s" "b" 3 0).maxRetries :=
  ⟨by decide,
   retry_count_invariant (NewEmailJob "job-w3" "a@b.c" "s" "b" 3 0)
     (ReachableJob.created "job-w3" "a@b.c" "s" "b" 3 0 (by decide)) (by decide)⟩

/-- C10: `UpdateJobStatus` leaves the stored retry count unchanged whenever
the supplied count is zero (or any non-positive value); only strictly
positive counts overwrite it; and the processor's own status-update wrapper,
which always passes zero, therefore never resets an accumulated retry
count. -/
theorem update_status_retry_count_frame (j : EmailJob) (s : JobStatus)
    (msg : String) (t : Int) :
    (applyUpdateJobStatus j s msg 0 t).retryCount = j.retryCount
    ∧ (∀ rc : Int, rc ≤ 0 →
        (applyUpdateJobStatus j s msg rc t).retryCount = j.retryCount)
    ∧ (∀ rc : Int, 0 < rc → s.IsValid = true →
        (applyUpdateJobStatus j s msg rc t).retryCount = rc)
    ∧ ∀ (store : EmailJob) (id : String),
        (processorUpdateJobStatus store id s msg t).retryCount = store.retryCount := by
  refine ⟨applyUpdateJobStatus_retryCount_nonpos j s msg 0 t (by omega),
          fun rc h => applyUpdateJobStatus_retryCount_nonpos j s msg rc t h,
          fun rc h hv => applyUpdateJobStatus_retryCount_pos j s msg rc t h hv,
          fun store id => ?_⟩
  show (if (id == store.jobID && !(id == "")) = true
          then applyUpdateJobStatus store s msg 0 t else store).retryCount =
    store.retryCount
  split
  · exact applyUpdateJobStatus_retryCount_nonpos store s msg 0 t (by omega)
  · rfl

/-- Witness for C10 at a concrete job, status, and retry-count arguments. -/
theorem update_status_retry_count_frame_witness :
    (applyUpdateJobStatus freshJob .processing "" 0 7).retryCount = freshJob.retryCount
    ∧ (0 : Int) < 2 ∧ JobStatus.IsValid .retrying = true
    ∧ (applyUpdateJobStatus freshJob .retrying "boom" 2 7).retryCount = 2 :=
  ⟨(update_status_retry_count_frame freshJob .processing "" 7).1,
   by decide, by decide,
   (update_status_retry_count_frame freshJob .retrying "boom" 7).2.2.1 2 (by decide)
     (by decide)⟩

lemma retryDelaySeconds_eq_min (c : Int) : retryDelaySeconds c = min (c * c) 30 := by
  unfold retryDelaySeconds
  split <;> omega

lemma handleRetry_retry_branch (j : EmailJob) (e : GoError) (t : Int)
    (pubErr : Option GoError) (hs : ShouldRetry j e = true) :
    HandleRetry j e t pubErr =
      ([Effect.storeUpdate j.jobID .retrying e.Error (j.retryCount + 1) t,
        Effect.scheduleRepublish "email_tasks" (j.IncrementRetry e.Error t)
          (retryDelaySeconds (j.retryCount + 1))],
       j.IncrementRetry e.Error t, none) := by
  unfold HandleRetry
  rw [hs]
  simp [incrementRetry_retryCount]

/-- C7: on the retry path, the delay scheduled before republishing onto the
main queue is exactly `min(retryCount^2, 30)` seconds of the incremented
retry count; and the backoff function satisfies the claimed table (square up
to 5, capped at 30 from 6 on). -/
theorem backoff_bound (j : EmailJob) (e : GoError) (t : Int)
    (pubErr : Option GoError) (hs : ShouldRetry j e = true) :
    (HandleRetry j e t pubErr).1 =
      [Effect.storeUpdate j.jobID .retrying e.Error (j.retryCount + 1) t,
       Effect.scheduleRepublish "email_tasks" (j.IncrementRetry e.Error t)
         (min ((j.retryCount + 1) * (j.retryCount + 1)) 30)]
    ∧ (∀ c : Int, retryDelaySeconds c = min (c * c) 30)
    ∧ (∀ c : Int, 6 ≤ c → retryDelaySeconds c = 30)
    ∧ (∀ c : Int, 1 ≤ c → c ≤ 5 → retryDelaySeconds c = c * c) := by
  refine ⟨?_, retryDelaySeconds_eq_min, fun c hc => ?_, fun c hc1 hc5 => ?_⟩
  · rw [handleRetry_retry_branch j e t pubErr hs, retryDelaySeconds_eq_min]
  · have h36 : 36 ≤ c * c := by nlinarith
    rw [retryDelaySeconds_eq_min]
    omega
  · have h25 : c * c ≤ 25 := by nlinarith
    rw [retryDelaySeconds_eq_min]
    omega

/-- Witness for C7 at a concrete job with five prior retries (the cap
triggers: the sixth attempt gets a 30-second delay, not 36). -/
theorem backoff_bound_witness :
    ShouldRetry { freshJob with retryCount := 5, maxRetries := 10 } smtpSendErr = true
    ∧ retryDelaySeconds 6 = min (6 * 6) 30
    ∧ retryDelaySeconds 5 = 5 * 5 :=
  ⟨by decide,
   (backoff_bound { freshJob with retryCount := 5, maxRetries := 10 } smtpSendErr 0 none
       (by decide)).2.1 6,
   (backoff_bound { freshJob with retryCount := 5, maxRetries := 10 } smtpSendErr 0 none
       (by decide)).2.2.2 5 (by decide) (by decide)⟩

lemma shouldRetry_iff (j : EmailJob) (e : GoError) :
    ShouldRetry j e = true ↔
      (j.retryCount < j.maxRetries ∧ j.status.IsTerminal = false ∧
       IsValidationError e = false ∧ IsConfigError e = false) := by
  unfold ShouldRetry
  split_ifs with h1 h2 h3 h4 h5
  · simp only [false_iff]
    rintro ⟨hlt, -, -, -⟩
    omega
  · simp only [false_iff]
    rintro ⟨-, hterm, -, -⟩
    simp_all
  · simp only [false_iff]
    rintro ⟨-, -, hv, -⟩
    simp_all
  · simp only [false_iff]
    rintro ⟨-, -, -, hc⟩
    simp_all
  · simp only [true_iff]
    exact ⟨by omega, by simp_all, by simp_all, by simp_all⟩
  · simp only [true_iff]
    exact ⟨by omega, by simp_all, by simp_all, by simp_all⟩

lemma handleMaxRetriesExceeded_job (j : EmailJob) (e : GoError) (t : Int)
    (pubErr : Option GoError) :
    (handleMaxRetriesExceeded j e t pubErr).2.1 =
      j.UpdateStatus .failed "Max retries exceeded"
        ("Failed after " ++ toString j.retryCount ++ " retries: " ++ e.Error) t := by
  unfold handleMaxRetriesExceeded
  cases pubErr <;> rfl

lemma handleMaxRetriesExceeded_trace (j : EmailJob) (e : GoError) (t : Int)
    (pubErr : Option GoError) :
    (handleMaxRetriesExceeded j e t pubErr).1 =
      [Effect.storeUpdate j.jobID .failed
         ("Failed after " ++ toString j.retryCount ++ " retries: " ++ e.Error)
         j.retryCount t,
       Effect.publishQueue "email_tasks_failed"
         (j.UpdateStatus .failed "Max retries exceeded"
           ("Failed after " ++ toString j.retryCount ++ " retries: " ++ e.Error) t)] := by
  unfold handleMaxRetriesExceeded
  cases pubErr <;> rfl

lemma handleRetry_final_branch (j : EmailJob) (e : GoError) (t : Int)
    (pubErr : Option GoError) (hs : ShouldRetry j e = false) :
    HandleRetry j e t pubErr = handleMaxRetriesExceeded j e t pubErr := by
  unfold HandleRetry
  rw [hs]
  rfl

/-- C2: `HandleRetry` takes the retry path (incrementing the count, recording
the error in history, persisting the retrying status, and scheduling a
republish onto the main queue) exactly when the retry count is below the
maximum, the status is not terminal, and the error is neither of the
validation nor of the configuration class (unknown error classes default to
retryable); otherwise it runs the failed finalization. -/
theorem retry_decision_iff (j : EmailJob) (e : GoError) (t : Int)
    (pubErr : Option GoError) :
    (ShouldRetry j e = true ↔
      (j.retryCount < j.maxRetries ∧ j.status.IsTerminal = false ∧
       IsValidationError e = false ∧ IsConfigError e = false))
    ∧ (ShouldRetry j e = true →
        (HandleRetry j e t pubErr).2.1.retryCount = j.retryCount + 1
        ∧ (HandleRetry j e t pubErr).2.1.history =
            j.history ++ [⟨.retrying, t, e.Error, "Job requeued for retry"⟩]
        ∧ (HandleRetry j e t pubErr).1 =
            [Effect.storeUpdate j.jobID .retrying e.Error (j.retryCount + 1) t,
             Effect.scheduleRepublish "email_tasks" (j.IncrementRetry e.Error t)
               (retryDelaySeconds (j.retryCount + 1))])
    ∧ (ShouldRetry j e = false →
        HandleRetry j e t pubErr = handleMaxRetriesExceeded j e t pubErr
        ∧ statusString (HandleRetry j e t pubErr).2.1.status = "failed") := by
  refine ⟨shouldRetry_iff j e, fun hs => ?_, fun hs => ?_⟩
  · rw [handleRetry_retry_branch j e t pubErr hs]
    exact ⟨incrementRetry_retryCount j e.Error t, incrementRetry_history j e.Error t, rfl⟩
  · refine ⟨handleRetry_final_branch j e t pubErr hs, ?_⟩
    rw [handleRetry_final_branch j e t pubErr hs, handleMaxRetriesExceeded_job,
        updateStatus_status]
    rfl

/-- Witness for C2: an unknown (non-domain) error on a fresh job is
retryable, and the retry path produces the incremented count. -/
theorem retry_decision_iff_witness :
    ShouldRetry freshJob (GoError.plain "boom") = true
    ∧ (HandleRetry freshJob (GoError.plain "boom") 4 none).2.1.retryCount =
        freshJob.retryCount + 1 :=
  ⟨((retry_decision_iff freshJob (GoError.plain "boom") 4 none).1).mpr
      (by refine ⟨by decide, by decide, by decide, by decide⟩),
   ((retry_decision_iff freshJob (GoError.plain "boom") 4 none).2.1 (by decide)).1⟩

/-- C6: whenever `HandleRetry` finalizes, the effect trace consists of the
failed store write with the composed terminal message followed by the
dead-letter publish (so the status update precedes the dead-letter publish
and happens even when that publish fails), and `HandleRetry` returns an
error to its caller whenever the dead-letter publish fails. -/
theorem deadletter_finalize (j : EmailJob) (e : GoError) (t : Int)
    (pubErr : Option GoError) (pe : GoError) (hs : ShouldRetry j e = false) :
    (HandleRetry j e t pubErr).1 =
      [Effect.storeUpdate j.jobID .failed
         ("Failed after " ++ toString j.retryCount ++ " retries: " ++ e.Error)
         j.retryCount t,
       Effect.publishQueue "email_tasks_failed"
         (j.UpdateStatus .failed "Max retries exceeded"
           ("Failed after " ++ toString j.retryCount ++ " retries: " ++ e.Error) t)]
    ∧ statusString (HandleRetry j e t pubErr).2.1.status = "failed"
    ∧ (HandleRetry j e t (some pe)).2.2 =
        some (GoError.domain .jobProcessing "failed to send job to failed queue"
          (some pe.Error))
    ∧ (HandleRetry j e t pubErr).2.2.isSome = true := by
  refine ⟨?_, ?_, ?_, ?_⟩
  · rw [handleRetry_final_branch j e t pubErr hs, handleMaxRetriesExceeded_trace]
  · rw [handleRetry_final_branch j e t pubErr hs, handleMaxRetriesExceeded_job,
        updateStatus_status]
    rfl
  · rw [handleRetry_final_branch j e t (some pe) hs]
    rfl
  · rw [handleRetry_final_branch j e t pubErr hs]
    unfold handleMaxRetriesExceeded
    cases pubErr <;> rfl

/-- Witness for C6 at a job whose retries are exhausted, with a failing
dead-letter publish. -/
theorem deadletter_finalize_witness :
    ShouldRetry { freshJob with retryCount := 3 } smtpSendErr = false
    ∧ (HandleRetry { freshJob with retryCount := 3 } smtpSendErr 0
        (some (GoError.plain "amqp channel closed"))).2.2.isSome = true :=
  ⟨by decide,
   (deadletter_finalize { freshJob with retryCount := 3 } smtpSendErr 0
      (some (GoError.plain "amqp channel closed")) (GoError.plain "amqp channel closed")
      (by decide)).2.2.2⟩

lemma health_smtp_only_degraded (jp : Int) (e : GoError) :
    (HealthCheck true jp none none (some e)).status = "degraded" := rfl

/-- C9: when the store and queue pings succeed but the transport ping fails,
the overall health status of a running worker is degraded, not unhealthy;
and whenever the store ping or the queue ping fails, the overall status is
unhealthy. -/
theorem health_aggregation (jp : Int) (e : GoError) :
    (HealthCheck true jp none none (some e)).status = "degraded"
    ∧ (HealthCheck true jp none none (some e)).status ≠ "unhealthy"
    ∧ (∀ (running : Bool) (qe se : Option GoError) (re : GoError),
        (HealthCheck running jp (some re) qe se).status = "unhealthy")
    ∧ (∀ (running : Bool) (re se : Option GoError) (qe : GoError),
        (HealthCheck running jp re (some qe) se).status = "unhealthy") := by
  refine ⟨health_smtp_only_degraded jp e, ?_, ?_, ?_⟩
  · rw [health_smtp_only_degraded jp e]
    decide
  · intro running qe se re
    cases running <;> cases qe <;> cases se <;> rfl
  · intro running re se qe
    cases running <;> cases re <;> cases se <;> rfl

/-- Witness for C9: transport-only failure is degraded; a store failure is
unhealthy. -/
theorem health_aggregation_witness :
    (HealthCheck true 0 none none
        (some (GoError.domain .smtp "SMTP server unreachable" none))).status = "degraded"
    ∧ (HealthCheck true 0 (some (GoError.domain .redis "Redis ping failed" none))
        none none).status = "unhealthy" :=
  ⟨(health_aggregation 0 (GoError.domain .smtp "SMTP server unreachable" none)).1,
   (health_aggregation 0 (GoError.domain .smtp "SMTP server unreachable" none)).2.2.1
     true none none (GoError.domain .redis "Redis ping failed" none)⟩

lemma lookupField_append (xs ys : List (String × Json)) (k : String) :
    lookupField (xs ++ ys) k =
      match lookupField xs k with
      | some v => some v
      | none => lookupField ys k := by
  induction xs with
  | nil => simp [lookupField]
  | cons p rest ih =>
      obtain ⟨k1, v1⟩ := p
      by_cases h : k1 = k
      · simp [lookupField, h]
      · simp [lookupField, h, ih]

lemma lookup_marshalFields_content (j : EmailJob) :
    lookupField (marshalFields j) "content" = none := by
  unfold marshalFields
  rw [lookupField_append, lookupField_append, lookupField_append]
  by_cases h1 : j.lastError = "" <;> by_cases h2 : j.metadata = [] <;>
    simp [h1, h2, lookupField]

/-- C1: the publish/consume round-trip is broken.  `PublishEmailJob`
serializes the job flat (`json.Marshal(job)`), while `ConsumeEmailJobs`
expects a `content` envelope and drops any message whose `content` field is
absent; hence every message body produced by `PublishEmailJob` -- in
particular every job republished for retry -- is dropped as malformed and
the consumer's handler is never invoked. -/
theorem published_body_dropped_by_consumer (j : EmailJob) :
    consumeMessageBody (marshalEmailJob j) = none
    ∧ ∀ body : Json, PublishEmailJob j = Except.ok body →
        consumeMessageBody body = none := by
  have hdrop : consumeMessageBody (marshalEmailJob j) = none := by
    simp only [marshalEmailJob, consumeMessageBody, lookup_marshalFields_content]
  refine ⟨hdrop, fun body hb => ?_⟩
  unfold PublishEmailJob at hb
  rcases hv : j.Validate with _ | msg
  · rw [hv] at hb
    cases hb
    exact hdrop
  · rw [hv] at hb
    cases hb

/-- Witness for C1: the concrete retrying job republished by the retry
coordinator is dropped by the consumer. -/
theorem published_body_dropped_by_consumer_witness :
    PublishEmailJob { freshJob with status := .retrying, retryCount := 1 } =
        Except.ok (marshalEmailJob { freshJob with status := .retrying, retryCount := 1 })
    ∧ consumeMessageBody
        (marshalEmailJob { freshJob with status := .retrying, retryCount := 1 }) = none :=
  ⟨rfl,
   (published_body_dropped_by_consumer
      { freshJob with status := .retrying, retryCount := 1 }).1⟩

/-- C4: the claimed history state machine is violated by the code.  On a
retryable send failure the processor persists `failed` to the store before
delegating to the retry coordinator, which then persists `retrying`: a fresh
pending job whose first send fails with a retryable SMTP error ends up with
the history status sequence processing, failed, retrying -- a `failed` entry
immediately followed by a `retrying` entry, which the claimed state machine
(failed terminal, never followed by retrying) forbids. -/
theorem interim_failed_then_retrying_in_history :
    statusTrace (handleEmailJob true freshJob freshJob (some smtpSendErr) none 1) =
      [.processing, .failed, .retrying]
    ∧ chainHasFailedThenRetrying
        (statusTrace (handleEmailJob true freshJob freshJob (some smtpSendErr) none 1)) =
      true
    ∧ statusString
        (handleEmailJob true freshJob freshJob (some smtpSendErr) none 1).status =
      "retrying" := by
  refine ⟨by decide, by decide, by decide⟩

/-- C5: `CanProcess` is indeed false on terminal jobs, but a delivery of an
already-completed job is not a no-op: the guard's error flows into
`HandleRetry`, whose finalization overwrites the stored completed job to
`failed` and appends a history entry. -/
theorem terminal_guard_not_noop :
    completedJob.CanProcess = false
    ∧ EmailJob.CanProcess { completedJob with status := .failed } = false
    ∧ statusString (handleEmailJob true completedJob completedJob none none 5).status =
        "failed"
    ∧ statusTrace (handleEmailJob true completedJob completedJob none none 5) =
        [.pending, .processing, .completed, .failed]
    ∧ ¬(handleEmailJob true completedJob completedJob none none 5 = completedJob) := by
  refine ⟨by decide, by decide, by decide, by decide, by decide⟩

/-- C8 counterexample: `GetJob` on an identifier absent from the store
returns a Redis-coded error, and that error is classified as an
infrastructure/retryable error -- the very class used for store connectivity
failures -- contradicting the claim that not-found is not of that class. -/
theorem getjob_notfound_is_retryable_counterexample :
    GetJob [] "missing" =
      Except.error (GoError.domain .redis "job missing not found" none)
    ∧ IsRetryableError (GoError.domain .redis "job missing not found" none) = true
    ∧ IsInfrastructureError (GoError.domain .redis "job missing not found" none) = true
    ∧ IsRetryableError
        (GoError.domain .redis "Redis ping failed" (some "connection refused")) = true := by
  refine ⟨rfl, by decide, by decide, by decide⟩

/-- C8 (amended): for every identifier absent from the store, `GetJob`
returns an error with the not-found message `job <id> not found`; that error
carries the same Redis infrastructure code as connectivity failures and is
classified retryable, so not-found is distinguished only by message text,
not by error class. -/
theorem getjob_notfound_amended (store : List (String × EmailJob)) (id : String)
    (hid : id ≠ "") (hmiss : redisGet store ("job:" ++ id) = none) :
    GetJob store id =
      Except.error (GoError.domain .redis ("job " ++ id ++ " not found") none)
    ∧ IsRetryableError (GoError.domain .redis ("job " ++ id ++ " not found") none) =
        true := by
  constructor
  · unfold GetJob
    rw [if_neg hid, hmiss]
  · rfl

/-- Witness for the amended C8 at a concrete missing identifier. -/
theorem getjob_notfound_amended_witness :
    ("missing" ≠ "")
    ∧ redisGet [] ("job:" ++ "missing") = none
    ∧ GetJob [] "missing" =
        Except.error (GoError.domain .redis ("job " ++ "missing" ++ " not found") none) :=
  ⟨by decide, rfl, (getjob_notfound_amended [] "missing" (by decide) rfl).1⟩
